import Mathlib

/-!
Verification of the conversational-memory core of the genAI chatbot server
(`src/main.py`).  The Python source is shallowly embedded: pure helper
functions become Lean functions on `List Char` / `String`, the JSON layer of
the turn orchestrator is embedded as an executable recursive-descent parser
matching Python `json.loads` on the fragment the server handles, and the
`dialogflow_webhook` turn is a pure function from the request-visible state to
the state it persists.
-/

namespace GenAI

/-! ## Python string primitives -/

/-- ASCII whitespace, as stripped by Python `str.strip()`. -/
def pyIsSpace (c : Char) : Bool :=
  c = ' ' || c = '\t' || c = '\n' || c = '\x0d' || c = '\x0b' || c = '\x0c'

/-- Python `str.strip()` on the character list of a string. -/
def pyStrip (s : List Char) : List Char :=
  ((s.dropWhile pyIsSpace).reverse.dropWhile pyIsSpace).reverse

/-- Python `str.strip()` returning a `String`. -/
def pyStripS (s : String) : String := ⟨pyStrip s.data⟩

/-- ASCII lower-casing of one character, as in Python `str.lower()`. -/
def pyLowerChar (c : Char) : Char :=
  if 'A' ≤ c ∧ c ≤ 'Z' then Char.ofNat (c.toNat + 32) else c

/-- Python `str.lower()` on a character list. -/
def pyLower (s : List Char) : List Char := s.map pyLowerChar

/-- List-prefix test used by the substring test below. -/
def isPrefixChars : List Char → List Char → Bool
  | [], _ => true
  | _ :: _, [] => false
  | a :: as, b :: bs => a = b && isPrefixChars as bs

/-- Python `needle in hay` substring containment. -/
def containsSub (needle : List Char) : List Char → Bool
  | [] => isPrefixChars needle []
  | hay@(_ :: t) => isPrefixChars needle hay || containsSub needle t

/-- Python `str.split(sep)` for a one-character separator (keeps empty parts). -/
def splitOnChar (sep : Char) : List Char → List (List Char)
  | [] => [[]]
  | c :: t =>
    match splitOnChar sep t with
    | [] => [[]]
    | h :: rest => if c = sep then [] :: h :: rest else (c :: h) :: rest

/-- Python `str.split(":", 1)`: text before and after the first colon,
`none` when the string has no colon. -/
def splitFirstColon : List Char → Option (List Char × List Char)
  | [] => none
  | c :: t =>
    if c = ':' then some ([], t)
    else (splitFirstColon t).map (fun p => (c :: p.1, p.2))

/-! ## JSON values and `json.loads`

The webhook extracts a brace-delimited span from the raw generation output
(a DOTALL regex search from the first opening brace to the last closing brace, main.py:1441) and feeds it to
`json.loads` (main.py:1443).  `Json` is the value domain and the parser below
is a strict recursive-descent embedding of `json.loads`; number tokens keep
their raw text because no numeric value is ever consumed by the server. -/

inductive Json where
  | null
  | bool (b : Bool)
  | num (raw : String)
  | str (s : String)
  | arr (elems : List Json)
  | obj (members : List (String × Json))

/-- JSON inter-token whitespace accepted by `json.loads`. -/
def jsonWs (c : Char) : Bool :=
  c = ' ' || c = '\t' || c = '\n' || c = '\x0d'

def skipWs (s : List Char) : List Char := s.dropWhile jsonWs

def hexVal (c : Char) : Option Nat :=
  if '0' ≤ c ∧ c ≤ '9' then some (c.toNat - 48)
  else if 'a' ≤ c ∧ c ≤ 'f' then some (c.toNat - 87)
  else if 'A' ≤ c ∧ c ≤ 'F' then some (c.toNat - 55)
  else none

/-- Simple JSON string escapes. -/
def escChar : Char → Option Char
  | '"' => some '"'
  | '\\' => some '\\'
  | '/' => some '/'
  | 'b' => some '\x08'
  | 'f' => some '\x0c'
  | 'n' => some '\n'
  | 'r' => some '\x0d'
  | 't' => some '\t'
  | _ => none

/-- Body of a JSON string after the opening quote: decoded characters and the
input remaining after the closing quote.  Strict mode: raw control characters
are rejected, as in `json.loads`. -/
def parseStringRest : List Char → Option (List Char × List Char)
  | [] => none
  | '"' :: t => some ([], t)
  | '\\' :: 'u' :: h1 :: h2 :: h3 :: h4 :: t =>
    match hexVal h1, hexVal h2, hexVal h3, hexVal h4 with
    | some a, some b, some c, some d =>
      (parseStringRest t).map
        (fun p => (Char.ofNat (((a * 16 + b) * 16 + c) * 16 + d) :: p.1, p.2))
    | _, _, _, _ => none
  | '\\' :: e :: t =>
    match escChar e with
    | some c => (parseStringRest t).map (fun p => (c :: p.1, p.2))
    | none => none
  | c :: t =>
    if c.toNat < 32 then none
    else (parseStringRest t).map (fun p => (c :: p.1, p.2))

/-- JSON number token (kept as raw text): `int [frac] [exp]`. -/
def parseNumber (s : List Char) : Option (Json × List Char) :=
  let (neg, s1) := match s with
    | '-' :: t => (['-'], t)
    | _ => (([] : List Char), s)
  match s1 with
  | [] => none
  | c :: _ =>
    if ¬ (Char.isDigit c) then none
    else
      let (intPart, s2) := match s1 with
        | '0' :: t => (['0'], t)
        | _ => s1.span Char.isDigit
      let (fracPart, s3) := match s2 with
        | '.' :: t =>
          let (ds, r) := t.span Char.isDigit
          if ds = [] then (([] : List Char), s2) else ('.' :: ds, r)
        | _ => (([] : List Char), s2)
      let (expPart, s4) := match s3 with
        | e :: t =>
          if e = 'e' ∨ e = 'E' then
            let (sgn, t1) := match t with
              | c' :: r => if c' = '+' ∨ c' = '-' then ([c'], r) else (([] : List Char), t)
              | [] => (([] : List Char), t)
            let (ds, r) := t1.span Char.isDigit
            if ds = [] then (([] : List Char), s3) else (e :: (sgn ++ ds), r)
          else (([] : List Char), s3)
        | [] => (([] : List Char), s3)
      some (Json.num ⟨neg ++ intPart ++ fracPart ++ expPart⟩, s4)

mutual

/-- One JSON value; fuel-indexed recursive descent. -/
def parseValue : Nat → List Char → Option (Json × List Char)
  | 0, _ => none
  | Nat.succ f, s =>
    match skipWs s with
    | [] => none
    | '\x7b' :: t => parseObjRest f t
    | '[' :: t => parseArrRest f t
    | '"' :: t => (parseStringRest t).map (fun p => (Json.str ⟨p.1⟩, p.2))
    | 't' :: 'r' :: 'u' :: 'e' :: t => some (Json.bool true, t)
    | 'f' :: 'a' :: 'l' :: 's' :: 'e' :: t => some (Json.bool false, t)
    | 'n' :: 'u' :: 'l' :: 'l' :: t => some (Json.null, t)
    | s' => parseNumber s'

def parseObjRest : Nat → List Char → Option (Json × List Char)
  | 0, _ => none
  | Nat.succ f, s =>
    match skipWs s with
    | '\x7d' :: r => some (Json.obj [], r)
    | s' => parseObjMembers f s' []

def parseObjMembers : Nat → List Char → List (String × Json) → Option (Json × List Char)
  | 0, _, _ => none
  | Nat.succ f, s, acc =>
    match skipWs s with
    | '"' :: t =>
      match parseStringRest t with
      | none => none
      | some (k, r1) =>
        match skipWs r1 with
        | ':' :: r2 =>
          match parseValue f r2 with
          | none => none
          | some (v, r3) =>
            match skipWs r3 with
            | ',' :: r4 => parseObjMembers f r4 (acc ++ [(⟨k⟩, v)])
            | '\x7d' :: r4 => some (Json.obj (acc ++ [(⟨k⟩, v)]), r4)
            | _ => none
        | _ => none
    | _ => none

def parseArrRest : Nat → List Char → Option (Json × List Char)
  | 0, _ => none
  | Nat.succ f, s =>
    match skipWs s with
    | ']' :: r => some (Json.arr [], r)
    | s' => parseArrElems f s' []

def parseArrElems : Nat → List Char → List Json → Option (Json × List Char)
  | 0, _, _ => none
  | Nat.succ f, s, acc =>
    match parseValue f s with
    | none => none
    | some (v, r1) =>
      match skipWs r1 with
      | ',' :: r2 => parseArrElems f r2 (acc ++ [v])
      | ']' :: r2 => some (Json.arr (acc ++ [v]), r2)
      | _ => none

end

/-- Python `json.loads`: the whole input must be one JSON value (with only
whitespace around it).  The fuel `4 * length + 8` exceeds the recursion depth
any input of that length can force. -/
def jsonLoads (s : List Char) : Option Json :=
  match parseValue (4 * s.length + 8) s with
  | some (v, rest) => if skipWs rest = [] then some v else none
  | none => none

/-- The span the DOTALL regex search of the webhook matches
(main.py:1441): from the first `\x7b` to the last `\x7d`, provided the latter
comes after the former. -/
def braceSpan (s : List Char) : Option (List Char) :=
  match s.findIdx? (fun c => c = '\x7b') with
  | none => none
  | some i =>
    match s.reverse.findIdx? (fun c => c = '\x7d') with
    | none => none
    | some jr =>
      let j := s.length - 1 - jr
      if i < j then some ((s.drop i).take (j - i + 1)) else none

/-- Lookup in a parsed JSON object; the last duplicate of a key wins, as in
the `dict` built by `json.loads`. -/
def jFind (j : Json) (key : String) : Option Json :=
  match j with
  | Json.obj ms => (ms.reverse.find? (fun kv => kv.1 == key)).map (fun kv => kv.2)
  | _ => none

/-- Python `response_json.get(key, dflt)`. -/
def jGet (j : Json) (key : String) (dflt : Json) : Json :=
  (jFind j key).getD dflt

/-! ## Text generation with fallback (`generate_text`, main.py:572-600)

Each element of `attempts` is the outcome `generate_text_with_model` would
produce for one model of the fallback list: `none` when the call raises,
`some r` when it returns `r`.  The first non-empty (after `strip`) result is
returned; if every model fails, the canned apology is returned — the function
itself never raises. -/

def generationApology : String :=
  "I\x27m having trouble generating a response right now. Please try again in a moment."

def generateText : List (Option String) → String
  | [] => generationApology
  | none :: rest => generateText rest
  | some r :: rest => if pyStrip r.data ≠ [] then r else generateText rest

/-! ## Significance analyzer (`summarize_conversation`, main.py:910-981) -/

structure AnalysisResult where
  is_significant : Bool
  summary : String
  instruction : Option String
deriving DecidableEq

/-- Tolerant line-based extraction of the analyzer output (main.py:947-964):
`is_significant` iff the first line contains `yes` case-insensitively; the
summary is the text after the colon of the first line containing `summary:`;
the instruction likewise from the first `instruction:` line, unless the text
after the colon contains `none`.  The `[]` branches mirror the source only
formally: `split` never returns an empty list, and the guard that found the
marker guarantees the colon `split(":", 1)[1]` indexes into exists. -/
def parseAnalysis (analysisText : List Char) : AnalysisResult :=
  let lines := splitOnChar '\n' (pyStrip analysisText)
  match lines with
  | [] => ⟨false, "No summary generated.", none⟩
  | l0 :: _ =>
    let isSig := containsSub "yes".data (pyLower l0)
    let summary : String :=
      match lines.find? (fun l => containsSub "summary:".data (pyLower l)) with
      | some l =>
        match splitFirstColon l with
        | some p => ⟨pyStrip p.2⟩
        | none => "No summary generated."
      | none => "No summary generated."
    let instruction : Option String :=
      match lines.find? (fun l => containsSub "instruction:".data (pyLower l)) with
      | some l =>
        match splitFirstColon l with
        | some p =>
          let t := pyStrip p.2
          if containsSub "none".data (pyLower t) then none else some ⟨t⟩
        | none => none
      | none => none
    ⟨isSig, summary, instruction⟩

/-- `summarize_conversation` (main.py:910-981): one structured-generation call
followed by `parseAnalysis`.  `generateText` is total, so the
`except` branch of the source (returning `"Error generating summary"`) is
unreachable and the analyzer never raises to its caller. -/
def summarizeConversation (attempts : List (Option String)) : AnalysisResult :=
  parseAnalysis (generateText attempts).data

/-! ## Cosine similarity (`cosine_similarity`, main.py:508-518)

Vector components are embedded as rationals; `np.linalg.norm` is the real
square root of the sum of squares.  The final `0` branch embeds the
`except` handler: `np.dot` raises on shape mismatch and the handler returns
`0.0`, so the function is total. -/

def dotQ (a b : List ℚ) : ℚ :=
  ((a.zip b).map (fun p => p.1 * p.2)).sum

def sumSq (a : List ℚ) : ℚ := (a.map (fun x => x * x)).sum

noncomputable def pyNorm (a : List ℚ) : ℝ := Real.sqrt ((sumSq a : ℚ) : ℝ)

noncomputable def cosine_similarity (a b : List ℚ) : ℝ :=
  if pyNorm a = 0 ∨ pyNorm b = 0 then 0
  else if a.length = b.length then ((dotQ a b : ℚ) : ℝ) / (pyNorm a * pyNorm b)
  else 0

/-! ## `sanitize_collection_name` (main.py:362-370) -/

/-- Characters the regex class `[^a-zA-Z0-9_-]` leaves untouched. -/
def sanitizeKeeps (c : Char) : Bool :=
  ('a' ≤ c && c ≤ 'z') || ('A' ≤ c && c ≤ 'Z') || ('0' ≤ c && c ≤ '9') ||
    c = '_' || c = '-'

def sanitize_collection_name (userId : String) : String :=
  let subbed := userId.data.map (fun c => if sanitizeKeeps c then c else '_')
  let prefixed :=
    match subbed with
    | c :: _ => if Char.isDigit c then "user_".data ++ subbed else subbed
    | [] => subbed
  if prefixed = [] then "anonymous_user" else ⟨prefixed⟩

/-! ## Memory store and vector index (`save_memory` main.py:742-820,
`retrieve_similar_memories` main.py:822-908)

Firestore documents live under `users/<sanitized>/memories/<memId>`; the
`owner` field is that sanitized collection name.  A vector-index datapoint
carries the restriction `namespace="user_id", allow_list=[sanitized]`
(main.py:793-801) and `find_neighbors` is queried with the namespace filter
`allow_tokens=[sanitized]` (main.py:842-854); the filter semantics of the
external index (only datapoints whose allow list contains the query token are
returned) is embedded in `findNeighbors`, with ranking abstracted to index
order.  Timestamps and the embedding service are opaque inputs. -/

structure MemDoc where
  user_id : String
  owner : String
  memId : String
  summary : Option String
  summaryEncrypted : Bool
deriving DecidableEq

structure Datapoint where
  dpId : String
  vector : List ℚ
  allowList : List String
deriving DecidableEq

structure MemoryState where
  docs : List MemDoc
  index : List Datapoint
deriving DecidableEq

/-- Outcome of the `encryption_service.encrypt` call in `save_memory`
(main.py:764-770): the service may be uninitialized (`unavailable`), the call
may raise (`raises`, caught by the `except`), or it returns the value
`encrypt` produced — `none` embeds Python `None`, the documented failure
result of `EncryptionService.encrypt` (encryption.py:39-72). -/
inductive EncBehavior where
  | unavailable
  | raises
  | ret (v : Option String)
deriving DecidableEq

/-- `save_memory(user_id, summary_text, ...)` (main.py:742-820).  `embed` is
the outcome of `embed_texts([summary_text])` (`none` when it raises, in which
case the enclosing `except` returns `False` before anything is written);
`idxAvailable` covers both `matching_engine_index` being `None` and the vector
upsert raising (its `except` only logs).  Returns the new state and the
return value of the function. -/
def save_memory (st : MemoryState) (userId summary memId : String)
    (embed : Option (List ℚ)) (enc : EncBehavior) (idxAvailable : Bool) :
    MemoryState × Bool :=
  match embed with
  | none => (st, false)
  | some vec =>
    let sanitized := sanitize_collection_name userId
    let encPair : Option String × Bool :=
      match enc with
      | EncBehavior.unavailable => (some summary, false)
      | EncBehavior.raises => (some summary, false)
      | EncBehavior.ret none => (none, false)
      | EncBehavior.ret (some c) => (some c, c ≠ "")
    let doc : MemDoc := ⟨userId, sanitized, memId, encPair.1, encPair.2⟩
    let docs' := st.docs ++ [doc]
    let index' :=
      if idxAvailable then st.index ++ [⟨memId, vec, [sanitized]⟩] else st.index
    (⟨docs', index'⟩, true)

/-- `vector_search_endpoint.find_neighbors` with the namespace filter
`Namespace("user_id", allow_tokens=[token])` (main.py:842-854). -/
def findNeighbors (index : List Datapoint) (token : String) (topK : Nat) :
    List String :=
  ((index.filter (fun d => token ∈ d.allowList)).take topK).map (fun d => d.dpId)

/-- `retrieve_similar_memories` (main.py:822-908): query the index under the
sanitized namespace of the user, then hydrate each returned id from that same
Firestore subcollection (missing docs are skipped).  The decryption step
rewrites `summary` in place and is omitted: it does not change which records
are returned, which is all the isolation claim concerns. -/
def retrieve_similar_memories (st : MemoryState) (userId : String) (topK : Nat) :
    List MemDoc :=
  let sanitized := sanitize_collection_name userId
  let ids := findNeighbors st.index sanitized topK
  ids.filterMap (fun i => st.docs.find? (fun d => d.owner == sanitized && d.memId == i))

/-- Every document was stored under the collection of the user that saved it —
true of every state reachable through `save_memory`. -/
def MemWellFormed (st : MemoryState) : Prop :=
  ∀ d ∈ st.docs, d.owner = sanitize_collection_name d.user_id

/-! ## The turn orchestrator (`dialogflow_webhook`, main.py:1255-1558)

The request-visible state is embedded as pure inputs: the (already decrypted
and type-coerced) profile fields, the session parameters the caller round
trips, the raw text the generation call returned, and the per-model outcomes
of the generation call inside the analyzer.  Wall-clock time enters only through
`elapsedSecs`, the whole seconds since `updated_at` (`none` when the profile
has no parsable timestamp, in which case the `except` at main.py:1372 skips
the gap logic). -/

/-- The five legal stage labels (main.py:1130-1135). -/
def stage1Label : String := "Stage 1: Getting to Know Each Other"

def legalStages : List String :=
  [ "Stage 1: Getting to Know Each Other",
    "Stage 2: Understanding What\x27s Up",
    "Stage 3: Figuring Out What They Want",
    "Stage 4: Working Through It",
    "Stage 5: Wrapping Up" ]

/-- Default reply installed before parsing (main.py:1435). -/
def defaultTurnReply : String :=
  "I\x27m having a little trouble thinking right now. Could you try that again?"

structure ProfileIn where
  consent : Bool
  currentStage : Option String
  context : String
  userInstructions : List String
  elapsedSecs : Option Nat
deriving DecidableEq

/-- One session-history entry (main.py:1469-1475); the timestamp field is
opaque and omitted.  `assistant` and `stage` hold whatever JSON values the
parse produced. -/
structure HistoryEntry where
  turn : Nat
  user : String
  assistant : Json
  stage : Json

structure TurnIn where
  profile : ProfileIn
  userText : String
  turnCount : Nat
  history : List HistoryEntry
  rawResponse : String
  analysisAttempts : List (Option String)

/-- Time-gap and stage-reset logic (main.py:1347-1374).  `softNote` records
that only a "time has passed" note was injected into the prompt (15 min to
24 h); the hard branch resets the stage and clears the bot context. -/
structure GapResult where
  stage : String
  context : String
  hardReset : Bool
  softNote : Bool
deriving DecidableEq

def hardThresholdSecs : Nat := 86400

def softThresholdSecs : Nat := 900

def applyTimeGap (stage ctx : String) (elapsed : Option Nat) : GapResult :=
  match elapsed with
  | none => ⟨stage, ctx, false, false⟩
  | some d =>
    if hardThresholdSecs < d then ⟨stage1Label, "", true, true⟩
    else if softThresholdSecs < d then ⟨stage, ctx, false, true⟩
    else ⟨stage, ctx, false, false⟩

/-- Result of the parse block (main.py:1429-1463). -/
structure ParsedFields where
  parseFailed : Bool
  reply : Json
  newStage : Json
  newContext : Json

/-- The parse block (main.py:1429-1463): search for a brace span; without one
the raw text becomes the reply; with one that `json.loads` rejects, the
defaults survive (reply stays the canned apology); on success each field is
`response_json.get(key, previous)`. -/
def parseResponse (raw : String) (currentStage botContext : String) : ParsedFields :=
  match braceSpan raw.data with
  | none => ⟨true, Json.str raw, Json.str currentStage, Json.str botContext⟩
  | some span =>
    match jsonLoads span with
    | none => ⟨true, Json.str defaultTurnReply, Json.str currentStage, Json.str botContext⟩
    | some j =>
      ⟨false,
        jGet j "reply_text" (Json.str defaultTurnReply),
        jGet j "new_stage" (Json.str currentStage),
        jGet j "context" (Json.str botContext)⟩

/-- `conversation_history[-10:]` truncation (main.py:1478-1479). -/
def truncateHistory (h : List HistoryEntry) : List HistoryEntry :=
  if 10 < h.length then h.drop (h.length - 10) else h

/-- The instruction-learning update (main.py:1507-1511):
`if new_instruction and new_instruction not in user_instructions_list:
append`. -/
def updateInstructions (l : List String) (ins : Option String) : List String :=
  match ins with
  | none => l
  | some s => if s ≠ "" ∧ s ∉ l then l ++ [s] else l

/-- Python slicing `v[:n]` succeeds exactly on `str` and `list` values. -/
def pySliceable : Json → Bool
  | Json.str _ => true
  | Json.arr _ => true
  | _ => false

/-- Python `v[:n]` on a sliceable JSON value. -/
def pyTake (n : Nat) : Json → Json
  | Json.str s => Json.str ⟨s.data.take n⟩
  | Json.arr xs => Json.arr (xs.take n)
  | v => v

/-- Python `new_stage == "Stage 1: ..."` (main.py:1497): only a string equal
to the label compares equal. -/
def jIsStage1 : Json → Bool
  | Json.str s => s == stage1Label
  | _ => false

/-- Whether each external call was issued during the turn. -/
structure CallTrace where
  retrievalCalled : Bool
  analyzerCalled : Bool
  memorySaveAttempted : Bool
deriving DecidableEq

/-- Everything the turn leaves behind: the fields written to the profile, the
session parameters returned to the caller, and the call trace. -/
structure TurnResult where
  effectiveStage : String
  effectiveContext : String
  sessionTurnCount : Nat
  parseFailed : Bool
  reply : Json
  persistedStage : Json
  persistedContext : Json
  persistedInstructions : List String
  history : List HistoryEntry
  trace : CallTrace

/-- A turn either completes or aborts with the 500 handler (main.py:1550-1558)
when a non-sliceable JSON field reaches `new_context[:100]` (main.py:1452) or
`reply_text[:200]` (main.py:1472); the calls issued before the abort are kept. -/
inductive TurnOutcome where
  | ok (r : TurnResult)
  | serverError (trace : CallTrace)

/-- Gap logic applied to the loaded profile: stage default at main.py:1349,
context at main.py:1289. -/
def turnGap (inp : TurnIn) : GapResult :=
  applyTimeGap (inp.profile.currentStage.getD stage1Label) inp.profile.context
    inp.profile.elapsedSecs

/-- The parse block applied to the stripped generation output
(main.py:1427). -/
def turnParsed (inp : TurnIn) : ParsedFields :=
  parseResponse (pyStripS inp.rawResponse) (turnGap inp).stage (turnGap inp).context

/-- The history entry a successfully parsed turn appends (main.py:1469-1475);
`turn_count` is the incremented local (the hard reset at main.py:1364 rewrites
only the session parameter, not the local variable). -/
def turnEntry (inp : TurnIn) : HistoryEntry :=
  ⟨inp.turnCount + 1, ⟨inp.userText.data.take 200⟩,
    pyTake 200 (turnParsed inp).reply, (turnParsed inp).newStage⟩

/-- The straight-line body of `dialogflow_webhook` after generation
(main.py:1465-1534), assuming no abort. -/
def turnCore (inp : TurnIn) : TurnResult :=
  let gap := turnGap inp
  let p := turnParsed inp
  let hasConsent := inp.profile.consent
  let turnCountLocal := inp.turnCount + 1
  let history' :=
    if p.parseFailed then inp.history
    else truncateHistory (inp.history ++ [turnEntry inp])
  let persistedContext :=
    if jIsStage1 p.newStage ∧ gap.stage ≠ stage1Label then Json.str "" else p.newContext
  let analysis := summarizeConversation inp.analysisAttempts
  let instructions' :=
    if hasConsent then updateInstructions inp.profile.userInstructions analysis.instruction
    else inp.profile.userInstructions
  { effectiveStage := gap.stage
    effectiveContext := gap.context
    sessionTurnCount := if gap.hardReset then 1 else turnCountLocal
    parseFailed := p.parseFailed
    reply := p.reply
    persistedStage := p.newStage
    persistedContext := persistedContext
    persistedInstructions := instructions'
    history := history'
    trace :=
      ⟨hasConsent, hasConsent,
        hasConsent && analysis.is_significant
          && decide (analysis.summary ≠ "No summary generated.")⟩ }

/-- One request through `dialogflow_webhook` (main.py:1255-1558).  Memory
retrieval (main.py:1327-1345) precedes the gap logic, so a turn that aborts
has already issued it when consent is on; the analyzer and memory save come
after both possible abort points. -/
def webhookTurn (inp : TurnIn) : TurnOutcome :=
  let p := turnParsed inp
  if p.parseFailed = false ∧ (pySliceable p.newContext = false ∨ pySliceable p.reply = false)
  then TurnOutcome.serverError ⟨inp.profile.consent, false, false⟩
  else TurnOutcome.ok (turnCore inp)

/-! ## Helper lemmas -/

theorem webhookTurn_ok_eq {inp : TurnIn} {r : TurnResult}
    (h : webhookTurn inp = TurnOutcome.ok r) : r = turnCore inp := by
  unfold webhookTurn at h
  simp only [] at h
  split at h
  · cases h
  · injection h with h
    exact h.symm

theorem turnCore_effectiveStage (inp : TurnIn) :
    (turnCore inp).effectiveStage = (turnGap inp).stage := rfl

theorem turnCore_effectiveContext (inp : TurnIn) :
    (turnCore inp).effectiveContext = (turnGap inp).context := rfl

theorem turnCore_parseFailed (inp : TurnIn) :
    (turnCore inp).parseFailed = (turnParsed inp).parseFailed := rfl

theorem turnCore_reply (inp : TurnIn) :
    (turnCore inp).reply = (turnParsed inp).reply := rfl

theorem turnCore_persistedStage (inp : TurnIn) :
    (turnCore inp).persistedStage = (turnParsed inp).newStage := rfl

theorem turnCore_persistedContext (inp : TurnIn) :
    (turnCore inp).persistedContext =
      if jIsStage1 (turnParsed inp).newStage ∧ (turnGap inp).stage ≠ stage1Label
      then Json.str "" else (turnParsed inp).newContext := rfl

theorem turnCore_persistedInstructions (inp : TurnIn) :
    (turnCore inp).persistedInstructions =
      if inp.profile.consent then
        updateInstructions inp.profile.userInstructions
          (summarizeConversation inp.analysisAttempts).instruction
      else inp.profile.userInstructions := rfl

theorem turnCore_history (inp : TurnIn) :
    (turnCore inp).history =
      if (turnParsed inp).parseFailed then inp.history
      else truncateHistory (inp.history ++ [turnEntry inp]) := rfl

theorem turnCore_trace (inp : TurnIn) :
    (turnCore inp).trace =
      ⟨inp.profile.consent, inp.profile.consent,
        inp.profile.consent && (summarizeConversation inp.analysisAttempts).is_significant
          && decide ((summarizeConversation inp.analysisAttempts).summary
              ≠ "No summary generated.")⟩ := rfl

theorem truncateHistory_length_le (h : List HistoryEntry) :
    (truncateHistory h).length ≤ 10 := by
  unfold truncateHistory
  split
  · rename_i hlen
    rw [List.length_drop]
    omega
  · rename_i hlen
    omega

theorem truncateHistory_suffix (h : List HistoryEntry) :
    truncateHistory h <:+ h := by
  unfold truncateHistory
  split
  · exact List.drop_suffix _ _
  · exact List.suffix_refl _

theorem truncateHistory_eq_of_le (h : List HistoryEntry) (hle : h.length ≤ 10) :
    truncateHistory h = h := by
  unfold truncateHistory
  rw [if_neg]
  omega

/-! ## Claim theorems -/

/-- C7 (confirmed): an extracted non-null instruction is added to the standing
instructions exactly once — adding an instruction whose exact text is already
in the list leaves the list unchanged, a fresh non-empty instruction appears
exactly once afterwards, the update is idempotent (so the same phrase
recurring on a later turn adds nothing), and the consenting turn persists
exactly this update. -/
theorem instruction_dedup :
    ∀ (l : List String) (s : String),
      (s ∈ l → updateInstructions l (some s) = l) ∧
      (s ∉ l → s ≠ "" → (updateInstructions l (some s)).count s = 1) ∧
      (updateInstructions (updateInstructions l (some s)) (some s) =
        updateInstructions l (some s)) ∧
      (∀ inp : TurnIn, inp.profile.consent = true →
        (turnCore inp).persistedInstructions =
          updateInstructions inp.profile.userInstructions
            (summarizeConversation inp.analysisAttempts).instruction) := by
  intro l s
  refine ⟨?_, ?_, ?_, ?_⟩
  · intro hmem
    simp only [updateInstructions]
    rw [if_neg]
    intro hc
    exact hc.2 hmem
  · intro hnm hne
    simp only [updateInstructions]
    rw [if_pos ⟨hne, hnm⟩, List.count_append]
    rw [List.count_eq_zero.mpr hnm]
    simp
  · simp only [updateInstructions]
    by_cases hc : s ≠ "" ∧ s ∉ l
    · rw [if_pos hc, if_neg]
      intro hc2
      exact hc2.2 (List.mem_append_right l (List.mem_singleton.mpr rfl))
    · rw [if_neg hc, if_neg hc]
  · intro inp hcons
    rw [turnCore_persistedInstructions, if_pos hcons]

/-- C7 witness: a recurring instruction leaves the list unchanged, and a fresh
one is added exactly once. -/
theorem instruction_dedup_witness :
    updateInstructions ["Call me Captain"] (some "Call me Captain") = ["Call me Captain"] ∧
    (updateInstructions [] (some "Call me Captain")).count "Call me Captain" = 1 :=
  ⟨(instruction_dedup ["Call me Captain"] "Call me Captain").1 (by decide),
    (instruction_dedup [] "Call me Captain").2.1 (by decide) (by decide)⟩

/-- C9 (confirmed): after every successfully parsed turn the session history
holds at most 10 entries, is a suffix of the old history plus the new entry
(oldest entries dropped first), and is untruncated while the bound is not
exceeded. -/
theorem history_bounded :
    ∀ (inp : TurnIn) (r : TurnResult), webhookTurn inp = TurnOutcome.ok r →
      r.parseFailed = false →
      r.history.length ≤ 10 ∧
      r.history <:+ inp.history ++ [turnEntry inp] ∧
      (inp.history.length + 1 ≤ 10 → r.history = inp.history ++ [turnEntry inp]) := by
  intro inp r hok hpf
  have hre := webhookTurn_ok_eq hok
  subst hre
  rw [turnCore_parseFailed] at hpf
  rw [turnCore_history, hpf]
  simp only [Bool.false_eq_true, if_false]
  refine ⟨truncateHistory_length_le _, truncateHistory_suffix _, ?_⟩
  intro hlen
  apply truncateHistory_eq_of_le
  rw [List.length_append, List.length_singleton]
  exact hlen

/-- Concrete successfully parsed turn used by the C9 witness. -/
def c9Input : TurnIn :=
  { profile :=
      { consent := false, currentStage := some stage1Label, context := "",
        userInstructions := [], elapsedSecs := none },
    userText := "hi", turnCount := 0, history := [],
    rawResponse := "\x7b\"reply_text\": \"ok\", \"new_stage\": \"Stage 1: Getting to Know Each Other\", \"context\": \"n\"\x7d",
    analysisAttempts := [] }

/-- C9 witness: a successfully parsed turn with empty incoming history obeys
the bound. -/
theorem history_bounded_witness : (turnCore c9Input).history.length ≤ 10 :=
  (history_bounded c9Input (turnCore c9Input) rfl rfl).1

/-- C5 (confirmed): with consent false or unset, the turn issues no memory
retrieval, no significance analysis and no memory save, and the persisted
standing instructions are exactly the incoming ones — whether the turn
completes or aborts with the 500 handler. -/
theorem consent_gates_memory :
    ∀ inp : TurnIn, inp.profile.consent = false →
      (∀ r, webhookTurn inp = TurnOutcome.ok r →
        r.trace = ⟨false, false, false⟩ ∧
        r.persistedInstructions = inp.profile.userInstructions) ∧
      (∀ t, webhookTurn inp = TurnOutcome.serverError t →
        t = ⟨false, false, false⟩) := by
  intro inp hc
  constructor
  · intro r hok
    have hre := webhookTurn_ok_eq hok
    subst hre
    constructor
    · rw [turnCore_trace, hc]
      simp
    · rw [turnCore_persistedInstructions, hc]
      simp
  · intro t ht
    unfold webhookTurn at ht
    simp only [] at ht
    split at ht
    · injection ht with h
      rw [← h, hc]
    · cases ht

/-- Concrete no-consent turn used by the C5 witness. -/
def c5Input : TurnIn :=
  { profile :=
      { consent := false, currentStage := some stage1Label, context := "",
        userInstructions := ["Call me Captain"], elapsedSecs := none },
    userText := "hello", turnCount := 0, history := [],
    rawResponse := "no json here",
    analysisAttempts := [some "SIGNIFICANT: YES\nSUMMARY: User shared a fact.\nINSTRUCTION: call me Captain"] }

/-- C5 witness: even with an analyzer output that would be significant and
carry an instruction, a no-consent turn performs no call and keeps the
instruction list. -/
theorem consent_gates_memory_witness :
    (turnCore c5Input).trace = ⟨false, false, false⟩ ∧
    (turnCore c5Input).persistedInstructions = ["Call me Captain"] :=
  (consent_gates_memory c5Input rfl).1 (turnCore c5Input) rfl

/-- C2 (confirmed): whenever the profile timestamp is older than 24 hours,
the stage in effect for the turn is forced to Stage 1 and the running notes
are cleared — for every generation output, i.e. regardless of what the model
proposes that turn. -/
theorem time_gap_forces_stage1 :
    ∀ (inp : TurnIn) (d : Nat),
      inp.profile.elapsedSecs = some d → hardThresholdSecs < d →
      (turnGap inp).stage = stage1Label ∧ (turnGap inp).context = "" ∧
      (∀ r, webhookTurn inp = TurnOutcome.ok r →
        r.effectiveStage = stage1Label ∧ r.effectiveContext = "") := by
  intro inp d hd hgt
  have hgap : turnGap inp = ⟨stage1Label, "", true, true⟩ := by
    unfold turnGap applyTimeGap
    rw [hd]
    simp [hgt]
  refine ⟨by rw [hgap], by rw [hgap], ?_⟩
  intro r hok
  have hre := webhookTurn_ok_eq hok
  subst hre
  rw [turnCore_effectiveStage, turnCore_effectiveContext, hgap]
  exact ⟨rfl, rfl⟩

/-- Concrete stale-profile turn used by the C2 witness: the model proposes
Stage 3 and fresh notes, yet the effective stage and notes for the turn are
the reset ones. -/
def c2Input : TurnIn :=
  { profile :=
      { consent := false, currentStage := some "Stage 4: Working Through It",
        context := "old notes", userInstructions := [], elapsedSecs := some 90000 },
    userText := "hi", turnCount := 4, history := [],
    rawResponse := "\x7b\"reply_text\": \"ok\", \"new_stage\": \"Stage 3: Figuring Out What They Want\", \"context\": \"fresh\"\x7d",
    analysisAttempts := [] }

/-- C2 witness: the stale profile is reset for the turn. -/
theorem time_gap_forces_stage1_witness :
    (turnCore c2Input).effectiveStage = stage1Label ∧
    (turnCore c2Input).effectiveContext = "" :=
  (time_gap_forces_stage1 c2Input 90000 rfl (by unfold hardThresholdSecs; norm_num)).2.2 (turnCore c2Input) rfl

theorem generateText_allFail (attempts : List (Option String))
    (h : ∀ a ∈ attempts, a = none) : generateText attempts = generationApology := by
  induction attempts with
  | nil => rfl
  | cons a rest ih =>
    have ha := h a (List.mem_cons_self a rest)
    subst ha
    exact ih (fun x hx => h x (List.mem_cons_of_mem _ hx))

/-- C6 (confirmed): if none of the line markers appears in the analyzer
generation output, the result is the safe default
`is_significant = false, summary = "No summary generated.",
instruction = none`; and when every generation attempt fails, the analyzer
still returns that same safe default (the canned apology the generation layer
substitutes carries no marker) rather than raising. -/
theorem analyzer_safe_defaults :
    (∀ t : String,
      (∀ l ∈ splitOnChar '\n' (pyStrip t.data),
        containsSub "summary:".data (pyLower l) = false) →
      (∀ l ∈ splitOnChar '\n' (pyStrip t.data),
        containsSub "instruction:".data (pyLower l) = false) →
      (∀ l0, (splitOnChar '\n' (pyStrip t.data)).head? = some l0 →
        containsSub "yes".data (pyLower l0) = false) →
      parseAnalysis t.data = ⟨false, "No summary generated.", none⟩) ∧
    (∀ attempts : List (Option String), (∀ a ∈ attempts, a = none) →
      summarizeConversation attempts = ⟨false, "No summary generated.", none⟩) := by
  constructor
  · intro t h1 h2 h3
    unfold parseAnalysis
    cases hls : splitOnChar '\n' (pyStrip t.data) with
    | nil => rfl
    | cons l0 rest =>
      have hsig : containsSub "yes".data (pyLower l0) = false :=
        h3 l0 (by rw [hls]; rfl)
      have hsum : (l0 :: rest).find?
          (fun l => containsSub "summary:".data (pyLower l)) = none := by
        rw [List.find?_eq_none]
        intro x hx
        rw [h1 x (hls ▸ hx)]
        exact Bool.false_ne_true
      have hins : (l0 :: rest).find?
          (fun l => containsSub "instruction:".data (pyLower l)) = none := by
        rw [List.find?_eq_none]
        intro x hx
        rw [h2 x (hls ▸ hx)]
        exact Bool.false_ne_true
      simp only [hsig, hsum, hins]
  · intro attempts hfail
    unfold summarizeConversation
    rw [generateText_allFail attempts hfail]
    decide

/-- C6 witness: a marker-free output and a total generation failure both
yield the safe default. -/
theorem analyzer_safe_defaults_witness :
    parseAnalysis ("hello").data = ⟨false, "No summary generated.", none⟩ ∧
    summarizeConversation [none, none] = ⟨false, "No summary generated.", none⟩ :=
  ⟨analyzer_safe_defaults.1 "hello" (by decide) (by decide) (by decide),
    analyzer_safe_defaults.2 [none, none] (by decide)⟩

theorem sumSq_nonneg (a : List ℚ) : 0 ≤ sumSq a := by
  unfold sumSq
  apply List.sum_nonneg
  intro x hx
  rw [List.mem_map] at hx
  obtain ⟨y, -, hy⟩ := hx
  rw [← hy]
  exact mul_self_nonneg y

theorem pyNorm_eq_zero_iff (a : List ℚ) : pyNorm a = 0 ↔ sumSq a = 0 := by
  unfold pyNorm
  rw [Real.sqrt_eq_zero (by exact_mod_cast sumSq_nonneg a)]
  exact_mod_cast Iff.rfl

/-- C8 (confirmed): `cosine_similarity` never divides by a zero norm — any
pair with a zero-norm member scores `0.0` — and the catch-all handler makes
it total: the one raising operation, `np.dot` on mismatched shapes, lands in
the handler branch that also returns `0.0`, so every input yields a real
number. -/
theorem cosine_similarity_safe :
    ∀ a b : List ℚ,
      ((sumSq a = 0 ∨ sumSq b = 0) → cosine_similarity a b = 0) ∧
      (a.length ≠ b.length → cosine_similarity a b = 0) := by
  intro a b
  constructor
  · intro h
    unfold cosine_similarity
    rw [if_pos]
    rcases h with h | h
    · exact Or.inl ((pyNorm_eq_zero_iff a).mpr h)
    · exact Or.inr ((pyNorm_eq_zero_iff b).mpr h)
  · intro h
    unfold cosine_similarity
    by_cases hz : pyNorm a = 0 ∨ pyNorm b = 0
    · rw [if_pos hz]
    · rw [if_neg hz, if_neg h]

/-- C8 witness: a zero vector scores zero against anything, and a shape
mismatch lands in the handler and scores zero. -/
theorem cosine_similarity_safe_witness :
    cosine_similarity [0, 0] [1, 2] = 0 ∧ cosine_similarity [1] [1, 2] = 0 :=
  ⟨(cosine_similarity_safe [0, 0] [1, 2]).1 (Or.inl (by simp [sumSq])),
    (cosine_similarity_safe [1] [1, 2]).2 (by decide)⟩

/-- Turn whose generation output proposes the illegal label Stage 9 while the
profile holds Stage 2. -/
def c1Input : TurnIn :=
  { profile :=
      { consent := false,
        currentStage := some "Stage 2: Understanding What\x27s Up",
        context := "notes", userInstructions := [], elapsedSecs := none },
    userText := "hi", turnCount := 0, history := [],
    rawResponse := "\x7b\"reply_text\": \"ok\", \"new_stage\": \"Stage 9\", \"context\": \"n\"\x7d",
    analysisAttempts := [] }

/-- C1 counterexample: the webhook persists the illegal label Stage 9 instead
of retaining the prior stage — no validation against the five legal labels
exists in the parse-and-persist path (main.py:1440-1500). -/
theorem stage_validation_counterexample :
    "Stage 9" ∉ legalStages ∧
    c1Input.profile.currentStage = some "Stage 2: Understanding What\x27s Up" ∧
    webhookTurn c1Input = TurnOutcome.ok (turnCore c1Input) ∧
    (turnCore c1Input).persistedStage = Json.str "Stage 9" ∧
    Json.str "Stage 9" ≠ Json.str "Stage 2: Understanding What\x27s Up" := by
  refine ⟨by decide, rfl, rfl, rfl, ?_⟩
  intro h
  injection h with h
  exact absurd h (by decide)

theorem parseResponse_noSpan {raw : String} (stage ctx : String)
    (hb : braceSpan raw.data = none) :
    parseResponse raw stage ctx =
      ⟨true, Json.str raw, Json.str stage, Json.str ctx⟩ := by
  unfold parseResponse
  rw [hb]

theorem parseResponse_badJson {raw : String} (stage ctx : String)
    {span : List Char} (hb : braceSpan raw.data = some span)
    (hl : jsonLoads span = none) :
    parseResponse raw stage ctx =
      ⟨true, Json.str defaultTurnReply, Json.str stage, Json.str ctx⟩ := by
  unfold parseResponse
  simp only [hb, hl]

theorem parseResponse_okJson {raw : String} (stage ctx : String)
    {span : List Char} {j : Json} (hb : braceSpan raw.data = some span)
    (hl : jsonLoads span = some j) :
    parseResponse raw stage ctx =
      ⟨false, jGet j "reply_text" (Json.str defaultTurnReply),
        jGet j "new_stage" (Json.str stage), jGet j "context" (Json.str ctx)⟩ := by
  unfold parseResponse
  simp only [hb, hl]

/-- C1 amended: the webhook falls back to the prior (effective) stage exactly
when parsing fails or the parsed object has no `new_stage` key; any value the
key does carry — legal label or not — is persisted verbatim. -/
theorem stage_fallback_amended :
    ∀ (raw stage ctx : String),
      ((parseResponse raw stage ctx).parseFailed = true →
        (parseResponse raw stage ctx).newStage = Json.str stage) ∧
      (∀ span j, braceSpan raw.data = some span → jsonLoads span = some j →
        (jFind j "new_stage" = none →
          (parseResponse raw stage ctx).newStage = Json.str stage) ∧
        (∀ v, jFind j "new_stage" = some v →
          (parseResponse raw stage ctx).newStage = v)) ∧
      (∀ inp r, webhookTurn inp = TurnOutcome.ok r →
        r.persistedStage = (turnParsed inp).newStage) := by
  intro raw stage ctx
  refine ⟨?_, ?_, ?_⟩
  · intro hpf
    cases hb : braceSpan raw.data with
    | none => rw [parseResponse_noSpan stage ctx hb]
    | some span =>
      cases hl : jsonLoads span with
      | none => rw [parseResponse_badJson stage ctx hb hl]
      | some j =>
        rw [parseResponse_okJson stage ctx hb hl] at hpf
        simp at hpf
  · intro span j hb hl
    rw [parseResponse_okJson stage ctx hb hl]
    constructor
    · intro hk
      simp only [jGet, hk, Option.getD_none]
    · intro v hk
      simp only [jGet, hk, Option.getD_some]
  · intro inp r hok
    have hre := webhookTurn_ok_eq hok
    subst hre
    exact turnCore_persistedStage inp

/-- C1 witness: with no brace span the previous stage survives, and the Stage
9 turn persists the proposed value verbatim. -/
theorem stage_fallback_amended_witness :
    (parseResponse "no braces" "Stage 4: Working Through It" "c").newStage =
      Json.str "Stage 4: Working Through It" ∧
    (turnCore c1Input).persistedStage = (turnParsed c1Input).newStage :=
  ⟨(stage_fallback_amended "no braces" "Stage 4: Working Through It" "c").1 rfl,
    (stage_fallback_amended "" "" "").2.2 c1Input (turnCore c1Input) rfl⟩

/-- Turn whose generation output contains a brace span that is not valid
JSON. -/
def c3Input : TurnIn :=
  { profile :=
      { consent := false,
        currentStage := some "Stage 2: Understanding What\x27s Up",
        context := "notes", userInstructions := [], elapsedSecs := none },
    userText := "hi", turnCount := 0, history := [],
    rawResponse := "oops \x7bnot json\x7d end",
    analysisAttempts := [] }

/-- C3 counterexample: when a brace span exists but `json.loads` rejects it,
the reply is the canned apology installed at main.py:1435 — not the raw
generated text the claim promises (the `except` branch at main.py:1459-1462
never assigns `reply_text = raw_response_text`). -/
theorem parse_failure_reply_counterexample :
    webhookTurn c3Input = TurnOutcome.ok (turnCore c3Input) ∧
    (turnCore c3Input).parseFailed = true ∧
    (turnCore c3Input).reply = Json.str defaultTurnReply ∧
    pyStripS c3Input.rawResponse = "oops \x7bnot json\x7d end" ∧
    defaultTurnReply ≠ "oops \x7bnot json\x7d end" :=
  ⟨rfl, rfl, rfl, rfl, by decide⟩

/-- C3 amended: on a turn whose output yields no parsable JSON object, the
persisted stage and notes are the effective ones of the turn and the history
is untouched; the reply is the raw text only when no brace span exists at
all — a span that fails `json.loads` leaves the canned apology as the
reply. -/
theorem parse_failure_amended :
    ∀ (inp : TurnIn) (r : TurnResult), webhookTurn inp = TurnOutcome.ok r →
      r.parseFailed = true →
      (braceSpan (pyStripS inp.rawResponse).data = none →
        r.reply = Json.str (pyStripS inp.rawResponse)) ∧
      (∀ span, braceSpan (pyStripS inp.rawResponse).data = some span →
        r.reply = Json.str defaultTurnReply) ∧
      r.persistedStage = Json.str r.effectiveStage ∧
      r.persistedContext = Json.str r.effectiveContext ∧
      r.history = inp.history := by
  intro inp r hok hpf
  have hre := webhookTurn_ok_eq hok
  subst hre
  rw [turnCore_parseFailed] at hpf
  have hfields :
      (turnParsed inp).newStage = Json.str (turnGap inp).stage ∧
      (turnParsed inp).newContext = Json.str (turnGap inp).context ∧
      (braceSpan (pyStripS inp.rawResponse).data = none →
        (turnParsed inp).reply = Json.str (pyStripS inp.rawResponse)) ∧
      (∀ span, braceSpan (pyStripS inp.rawResponse).data = some span →
        (turnParsed inp).reply = Json.str defaultTurnReply) := by
    cases hb : braceSpan (pyStripS inp.rawResponse).data with
    | none =>
      have hp := parseResponse_noSpan (turnGap inp).stage (turnGap inp).context hb
      unfold turnParsed at hpf ⊢
      refine ⟨by rw [hp], by rw [hp], fun _ => by rw [hp], fun span hsp => ?_⟩
      cases hsp
    | some span0 =>
      cases hl : jsonLoads span0 with
      | none =>
        have hp := parseResponse_badJson (turnGap inp).stage (turnGap inp).context hb hl
        unfold turnParsed at hpf ⊢
        refine ⟨by rw [hp], by rw [hp], fun hn => ?_, fun sp hsp => by rw [hp]⟩
        cases hn
      | some j =>
        have hp := parseResponse_okJson (turnGap inp).stage (turnGap inp).context hb hl
        unfold turnParsed at hpf
        rw [hp] at hpf
        simp at hpf
  refine ⟨hfields.2.2.1, hfields.2.2.2, ?_, ?_, ?_⟩
  · rw [turnCore_persistedStage, turnCore_effectiveStage, hfields.1]
  · rw [turnCore_persistedContext, turnCore_effectiveContext, hfields.1,
      hfields.2.1]
    rw [if_neg]
    intro hcond
    have h1 : (turnGap inp).stage = stage1Label := by
      have := hcond.1
      unfold jIsStage1 at this
      exact eq_of_beq this
    exact hcond.2 h1
  · rw [turnCore_history, hpf]
    simp

/-- C3 witness: the invalid-span turn keeps its stage, notes and history. -/
theorem parse_failure_amended_witness :
    (turnCore c3Input).reply = Json.str defaultTurnReply ∧
    (turnCore c3Input).persistedStage = Json.str (turnCore c3Input).effectiveStage ∧
    (turnCore c3Input).history = c3Input.history :=
  ⟨(parse_failure_amended c3Input (turnCore c3Input) rfl rfl).2.1
      ("\x7bnot json\x7d".data) rfl,
    (parse_failure_amended c3Input (turnCore c3Input) rfl rfl).2.2.1,
    (parse_failure_amended c3Input (turnCore c3Input) rfl rfl).2.2.2.2⟩

theorem save_memory_preserves_wf (st : MemoryState)
    (userId summary memId : String) (embed : Option (List ℚ))
    (enc : EncBehavior) (idx : Bool) (hwf : MemWellFormed st) :
    MemWellFormed (save_memory st userId summary memId embed enc idx).1 := by
  unfold save_memory
  cases embed with
  | none => exact hwf
  | some vec =>
    intro d hd
    simp only [List.mem_append, List.mem_singleton] at hd
    rcases hd with hd | hd
    · exact hwf d hd
    · subst hd
      rfl

/-- C4 amended: retrieval for user A cannot return a record saved by user B
whenever their sanitized collection names differ — saves index each vector
under the namespace of the sanitized id and store the document under that
same collection, and queries filter the index and hydrate documents under the
searching sanitized id only.  The sanitizer is not injective, so isolation
holds only up to sanitized-name equality (see the counterexample). -/
theorem namespace_isolation_amended :
    ∀ (st : MemoryState) (a b : String) (k : Nat),
      MemWellFormed st →
      sanitize_collection_name a ≠ sanitize_collection_name b →
      b ∉ (retrieve_similar_memories st a k).map (fun d => d.user_id) := by
  intro st a b k hwf hne hmem
  rw [List.mem_map] at hmem
  obtain ⟨r, hr, hrb⟩ := hmem
  unfold retrieve_similar_memories at hr
  rw [List.mem_filterMap] at hr
  obtain ⟨i, -, hfind⟩ := hr
  have hp := List.find?_some hfind
  have hmem2 := List.mem_of_find?_eq_some hfind
  rw [Bool.and_eq_true, beq_iff_eq, beq_iff_eq] at hp
  have howner : r.owner = sanitize_collection_name r.user_id := hwf r hmem2
  apply hne
  rw [← hp.1, howner, hrb]

/-- Memory state holding one record saved by user `user_1`. -/
def c4State : MemoryState :=
  (save_memory ⟨[], []⟩ "user_1" "secret fact" "m1" (some [1])
    EncBehavior.unavailable true).1

/-- C4 counterexample: `user.1` and `user_1` are distinct user ids that
sanitize to the same collection name, so retrieval for `user.1` returns the
record written for `user_1` — the claimed isolation fails for all-pairs
A ≠ B. -/
theorem namespace_isolation_counterexample :
    "user.1" ≠ "user_1" ∧
    sanitize_collection_name "user.1" = sanitize_collection_name "user_1" ∧
    (retrieve_similar_memories c4State "user.1" 3).map (fun d => d.user_id) =
      ["user_1"] := by
  refine ⟨by decide, by decide, by decide⟩

/-- C4 witness: a user whose sanitized name differs never sees the
record. -/
theorem namespace_isolation_witness :
    "user_1" ∉ (retrieve_similar_memories c4State "alice" 3).map
      (fun d => d.user_id) :=
  namespace_isolation_amended c4State "alice" "user_1" 3
    (by unfold MemWellFormed; decide) (by decide)

/-- C10 counterexample: when `encrypt` returns `None` (its documented failure
result, encryption.py:70-72), `save_memory` still writes the record and
returns `True`, but the stored summary is `None` — the plaintext is lost, not
preserved as the claim states. -/
theorem encryption_none_counterexample :
    (save_memory ⟨[], []⟩ "u" "my secret" "m1" (some [1])
      (EncBehavior.ret none) true).2 = true ∧
    ((save_memory ⟨[], []⟩ "u" "my secret" "m1" (some [1])
      (EncBehavior.ret none) true).1.docs.map (fun d => d.summary)) = [none] ∧
    ((save_memory ⟨[], []⟩ "u" "my secret" "m1" (some [1])
      (EncBehavior.ret none) true).1.docs.map (fun d => d.summaryEncrypted)) =
      [false] := ⟨rfl, rfl, rfl⟩

/-- C10 amended: an encryption failure never blocks the memory write and
`save_memory` still returns true with `summary_encrypted = false`; the
plaintext summary is preserved when the encryption service is unavailable or
the `encrypt` call raises, but when `encrypt` returns `None` — its documented
failure result — the record is written with a null summary instead of the
plaintext. -/
theorem encryption_failure_amended :
    ∀ (st : MemoryState) (u s id : String) (vec : List ℚ)
      (enc : EncBehavior) (idx : Bool),
      (enc = EncBehavior.unavailable ∨ enc = EncBehavior.raises →
        (save_memory st u s id (some vec) enc idx).2 = true ∧
        (save_memory st u s id (some vec) enc idx).1.docs =
          st.docs ++ [⟨u, sanitize_collection_name u, id, some s, false⟩]) ∧
      (enc = EncBehavior.ret none →
        (save_memory st u s id (some vec) enc idx).2 = true ∧
        (save_memory st u s id (some vec) enc idx).1.docs =
          st.docs ++ [⟨u, sanitize_collection_name u, id, none, false⟩]) := by
  intro st u s id vec enc idx
  constructor
  · intro h
    rcases h with h | h <;> subst h <;> exact ⟨rfl, rfl⟩
  · intro h
    subst h
    exact ⟨rfl, rfl⟩

/-- C10 witness: with the service unavailable the plaintext survives with the
flag down and the write succeeds. -/
theorem encryption_failure_amended_witness :
    (save_memory ⟨[], []⟩ "u" "s" "m" (some [1]) EncBehavior.unavailable true).2 = true ∧
    (save_memory ⟨[], []⟩ "u" "s" "m" (some [1]) EncBehavior.unavailable true).1.docs =
      [⟨"u", sanitize_collection_name "u", "m", some "s", false⟩] :=
  (encryption_failure_amended ⟨[], []⟩ "u" "s" "m" [1]
    EncBehavior.unavailable true).1 (Or.inl rfl)

end GenAI
